import Mathlib

/-!
Verification of the rawstudio visitor-analytics server against its
natural-language specification.

The JavaScript sources are shallowly embedded:

* JS strings are Lean `String`s; all character processing is done on
  `String.data` (a `List Char`) with executable structural functions,
  mirroring the regular expressions and string methods of the source.
* The two copies of the server (`src/unnamed/part_000` and
  `src/unnamed/part_001`) are embedded side by side; definitions carry the
  suffix `0` for `part_000` and `1` for `part_001`.
* JS numbers that hold VPN-confidence scores are modelled as `ℚ`.
* A thrown JS exception is an `Except.error`; the surrounding request
  handler turns it into an HTTP 500 response, as in the source.
* External effects (MongoDB availability, geoip-lite lookups, the
  GetIPIntel score, external IP-echo results) are parameters of the
  embedded handlers, standing for the values those calls produce.
-/

/-! ## Character-list utilities (JS string methods) -/

/-- Split a character list on a separator character, mirroring JS
`String.prototype.split` with a one-character separator: `n` separators
produce `n + 1` (possibly empty) groups. -/
def splitChar (c : Char) : List Char → List (List Char)
  | [] => [[]]
  | x :: xs =>
    if x = c then [] :: splitChar c xs
    else
      match splitChar c xs with
      | [] => [[x]]
      | g :: gs => (x :: g) :: gs

/-- Detects two adjacent occurrences of a character, used to recognise
zero-compressed (`::`) IPv6 spellings. -/
def hasDoubleChar (c : Char) : List Char → Bool
  | x :: y :: rest => if x = c ∧ y = c then true else hasDoubleChar c (y :: rest)
  | _ => false

/-- Substring test (JS `String.prototype.includes`), scanning for the
pattern at every suffix. -/
def infixCheck (pat : List Char) : List Char → Bool
  | [] => pat.isEmpty
  | c :: rest => pat.isPrefixOf (c :: rest) || infixCheck pat rest

/-- JS `hay.includes(sub)`. -/
def containsSub (hay sub : String) : Bool := infixCheck sub.data hay.data

/-- JS `String.prototype.toLowerCase` (ASCII, as used on ISP names). -/
def lowerS (s : String) : String := String.mk (s.data.map Char.toLower)

/-! ## Public-IP validator (`isValidPublicIP`, both copies)

`part_000` lines 177–211 and `part_001` lines 141–155. -/

/-- Strip one leading IPv4-mapped-IPv6 prefix, mirroring
`ip.replace(/^::ffff:/, '')`. -/
def stripMappedL (l : List Char) : List Char :=
  if "::ffff:".data.isPrefixOf l then l.drop 7 else l

/-- String-level variant of `stripMappedL`. -/
def stripMappedS (s : String) : String := String.mk (stripMappedL s.data)

/-- One dotted-quad group: 1–3 decimal digits, mirroring `\d{1,3}`. -/
def isDigitGroup (g : List Char) : Bool :=
  decide (1 ≤ g.length) && decide (g.length ≤ 3) && g.all Char.isDigit

/-- The IPv4 regex `^(\d{1,3}\.){3}\d{1,3}$`: exactly four groups of 1–3
digits separated by dots. -/
def ipv4TestL (l : List Char) : Bool :=
  let ps := splitChar '.' l
  ps.length == 4 && ps.all isDigitGroup

/-- One hexadecimal character, mirroring `[0-9a-fA-F]`. -/
def isHexChar (ch : Char) : Bool :=
  ch.isDigit || (decide ('a' ≤ ch) && decide (ch ≤ 'f')) ||
    (decide ('A' ≤ ch) && decide (ch ≤ 'F'))

/-- One IPv6 group: 1–4 hex characters, mirroring `[0-9a-fA-F]{1,4}`. -/
def isHexGroup (g : List Char) : Bool :=
  decide (1 ≤ g.length) && decide (g.length ≤ 4) && g.all isHexChar

/-- The strict IPv6 regex `^([0-9a-fA-F]{1,4}:){7}[0-9a-fA-F]{1,4}$`:
exactly eight colon-separated hex groups (no zero compression). -/
def ipv6TestL (l : List Char) : Bool :=
  let gs := splitChar ':' l
  gs.length == 8 && gs.all isHexGroup

/-- Second-octet patterns of the 172.16/12 exclusion in `part_000`: the
regex group `(1[6-9]|2[0-9]|3[21])` — note `3[21]` matches 31 and 32 but
not 30. -/
def oct172Pats0 : List String :=
  ["16.", "17.", "18.", "19.", "20.", "21.", "22.", "23.", "24.", "25.",
   "26.", "27.", "28.", "29.", "32.", "31."]

/-- Second-octet patterns of the 172.16/12 exclusion in `part_001`: the
regex group `(1[6-9]|2[0-9]|3[01])`. -/
def oct172Pats1 : List String :=
  ["16.", "17.", "18.", "19.", "20.", "21.", "22.", "23.", "24.", "25.",
   "26.", "27.", "28.", "29.", "30.", "31."]

/-- The `^172\.(…)\.` private-range test, parameterised by the second-octet
patterns of the two copies. -/
def matches172 (pats : List String) (l : List Char) : Bool :=
  "172.".data.isPrefixOf l && pats.any (fun p => p.data.isPrefixOf (l.drop 4))

/-- The private/loopback/link-local/unique-local range tests, in source
order (`/^127\./`, `/^10\./`, the 172 group, `/^192\.168\./`,
`/^169\.254\./`, `/^::1$/`, `/^fe80:/`, `/^fc00:/`, `/^fd00:/`). -/
def privateTestL (pats : List String) (l : List Char) : Bool :=
  "127.".data.isPrefixOf l || "10.".data.isPrefixOf l || matches172 pats l ||
  "192.168.".data.isPrefixOf l || "169.254.".data.isPrefixOf l ||
  l == "::1".data || "fe80:".data.isPrefixOf l ||
  "fc00:".data.isPrefixOf l || "fd00:".data.isPrefixOf l

/-- Body of `part_000`'s validator after the prefix strip: IPv4 or strict
IPv6 shape, then none of the excluded ranges. -/
def validCore0 (clean : List Char) : Bool :=
  if !(ipv4TestL clean || ipv6TestL clean) then false
  else !(privateTestL oct172Pats0 clean)

/-- Body of `part_001`'s validator after the prefix strip: IPv4 shape only
(no IPv6 acceptance), then none of the excluded ranges. -/
def validCore1 (clean : List Char) : Bool :=
  if !(ipv4TestL clean) then false
  else !(privateTestL oct172Pats1 clean)

/-- Character-list form of `part_000`'s `isValidPublicIP` (the `!ip` falsy
guard, the prefix strip, then `validCore0`). -/
def valid0L (l : List Char) : Bool :=
  if l.isEmpty then false else validCore0 (stripMappedL l)

/-- Character-list form of `part_001`'s `isValidPublicIP`. -/
def valid1L (l : List Char) : Bool :=
  if l.isEmpty then false else validCore1 (stripMappedL l)

/-- Function `isValidPublicIP` of `part_000` (lines 177–211). -/
def isValidPublicIP0 (ip : String) : Bool := valid0L ip.data

/-- Function `isValidPublicIP` of `part_001` (lines 141–155). -/
def isValidPublicIP1 (ip : String) : Bool := valid1L ip.data

/-! ## Client-IP resolver (`getRealIP`, both copies)

`part_000` lines 109–174 and `part_001` lines 113–139. The embedded
request carries the fields the source reads: `req.ip` (the address Express
provides), the (lower-cased) header map, and the raw connection/socket
addresses. -/

/-- The request data consumed by the resolvers and handlers. -/
structure Req where
  ip : Option String
  headers : List (String × String)
  connectionRemoteAddress : Option String
  socketRemoteAddress : Option String
  connectionSocketRemoteAddress : Option String

/-- Header lookup; an absent header and a header sent as the empty string
are both JS-falsy and fail the source's `if (value)` guards. -/
def getHeader (r : Req) (h : String) : Option String :=
  match (r.headers.find? (fun kv => kv.fst == h)).map Prod.snd with
  | some v => if v == "" then none else some v
  | none => none

/-- The proxy-header priority list of `part_000` (lines 126–141). -/
def proxyHeaders0 : List String :=
  ["cf-connecting-ip", "cf-pseudo-ipv4", "x-forwarded-for", "x-real-ip",
   "x-client-ip", "x-forwarded", "x-cluster-client-ip", "forwarded-for",
   "forwarded", "true-client-ip", "x-original-forwarded-for",
   "x-appengine-remote-addr", "x-azure-clientip", "x-azure-socketip"]

/-- Method 3 of `part_000`: first connection/socket address that passes the
public-IP validation, returned with the IPv4-mapped prefix stripped. -/
def scanConn0 : List (Option String) → Option String
  | [] => none
  | some ipStr :: rest =>
    if valid0L ipStr.data then some (stripMappedS ipStr) else scanConn0 rest
  | none :: rest => scanConn0 rest

/-- Methods 2–4 of `part_000`'s `getRealIP`. Method 2 evaluates
`value.split(',').trim()` for the first present proxy header; an Array has
no `trim` method, so this throws a TypeError, embedded as `Except.error`. -/
def getRealIP0Rest (r : Req) : Except Unit String :=
  if proxyHeaders0.any (fun h => (getHeader r h).isSome) then
    Except.error ()
  else
    match scanConn0 [r.connectionRemoteAddress, r.socketRemoteAddress,
        r.connectionSocketRemoteAddress] with
    | some ipStr => Except.ok ipStr
    | none => Except.ok "unknown"

/-- Function `getRealIP` of `part_000` (lines 109–174). Method 1 returns `req.ip`
(with the IPv4-mapped prefix stripped) unless it is falsy, `'::1'`,
`'127.0.0.1'`, or starts with `'::ffff:127.0.0.1'`. -/
def getRealIP0 (r : Req) : Except Unit String :=
  match r.ip with
  | some s =>
    if s ≠ "" ∧ s ≠ "::1" ∧ s ≠ "127.0.0.1" ∧
        ("::ffff:127.0.0.1".data.isPrefixOf s.data) = false then
      Except.ok (stripMappedS s)
    else getRealIP0Rest r
  | none => getRealIP0Rest r

/-- The header priority list of `part_001` (lines 115–120). -/
def vercelHeaders : List String :=
  ["x-forwarded-for", "x-real-ip", "cf-connecting-ip", "x-vercel-forwarded-for"]

/-- JS `value.split(',')[0]`: the characters before the first comma. -/
def headToken (l : List Char) : List Char := l.takeWhile (fun ch => ch ≠ ',')

/-- JS `String.prototype.trim`. -/
def trimL (l : List Char) : List Char :=
  ((l.dropWhile Char.isWhitespace).reverse.dropWhile Char.isWhitespace).reverse

/-- Header scan of `part_001`: first present header whose first
comma-separated token passes the public-IP validation. -/
def scanHeaders1 (r : Req) : List String → Option String
  | [] => none
  | h :: rest =>
    match getHeader r h with
    | some v =>
      let ipChars := trimL (headToken v.data)
      if valid1L ipChars then some (String.mk ipChars) else scanHeaders1 r rest
    | none => scanHeaders1 r rest

/-- Function `getRealIP` of `part_001` (lines 113–139): header scan first, then the
Express `req.ip` fallback, then `'unknown'`. -/
def getRealIP1 (r : Req) : String :=
  match scanHeaders1 r vercelHeaders with
  | some ipStr => ipStr
  | none =>
    match r.ip with
    | some s => if s ≠ "" ∧ valid1L s.data then stripMappedS s else "unknown"
    | none => "unknown"

/-! ## Geo lookup (`getLocationInfo`, both copies) -/

/-- The fields of a geoip-lite lookup result that the source reads. The
source field `geo.as` is called `asNum` here (`as` only). -/
structure GeoRec where
  country : Option String
  region : Option String
  city : Option String
  timezone : Option String
  ll : Option (ℚ × ℚ)
  org : Option String
  asNum : Option String

/-- JS `x || 'Unknown'` on an optional string field. -/
def orUnknown (o : Option String) : String :=
  match o with
  | some s => if s == "" then "Unknown" else s
  | none => "Unknown"

/-- The location record built by `part_000`'s `getLocationInfo`
(lines 336–371); `mapUrl` carries the coordinate payload of the generated
Google-Maps URL (`null` unless both coordinates are non-zero). -/
structure LocationInfo where
  country : String
  region : String
  city : String
  timezone : String
  lat : ℚ
  lng : ℚ
  isp : String
  asn : String
  mapUrl : Option (ℚ × ℚ)

/-- Function `getLocationInfo` of `part_000`: on a lookup miss every field defaults;
otherwise fields default individually (`geo.ll && geo.ll[0] ? … : 0` is the
identity on rationals since `0` is the JS-falsy rational). -/
def getLocationInfo0 (geo : Option GeoRec) : LocationInfo :=
  match geo with
  | none =>
    ⟨"Unknown", "Unknown", "Unknown", "Unknown", 0, 0, "Unknown", "Unknown", none⟩
  | some g =>
    let lat : ℚ := match g.ll with | some p => p.1 | none => 0
    let lng : ℚ := match g.ll with | some p => p.2 | none => 0
    ⟨orUnknown g.country, orUnknown g.region, orUnknown g.city,
     orUnknown g.timezone, lat, lng, orUnknown g.org, orUnknown g.asNum,
     if lat ≠ 0 ∧ lng ≠ 0 then some (lat, lng) else none⟩

/-- The location record built by `part_001`'s `getLocationInfo`
(lines 210–234): no `asn`/`mapUrl`. -/
structure LocationInfo1 where
  country : String
  region : String
  city : String
  timezone : String
  lat : ℚ
  lng : ℚ
  isp : String

/-- Function `getLocationInfo` of `part_001`. -/
def getLocationInfo1 (geo : Option GeoRec) : LocationInfo1 :=
  match geo with
  | none => ⟨"Unknown", "Unknown", "Unknown", "Unknown", 0, 0, "Unknown"⟩
  | some g =>
    let lat : ℚ := match g.ll with | some p => p.1 | none => 0
    let lng : ℚ := match g.ll with | some p => p.2 | none => 0
    ⟨orUnknown g.country, orUnknown g.region, orUnknown g.city,
     orUnknown g.timezone, lat, lng, orUnknown g.org⟩

/-! ## VPN/proxy classifier (`detectVPNProxy`, both copies)

`part_000` lines 258–333 and `part_001` lines 157–208. The Tor exit-node
set, the geoip organisation and the GetIPIntel score are parameters
standing for the environment the function consults. -/

/-- The classifier verdict (the `details` object, which no claim mentions,
is elided). -/
structure Verdict where
  isVPN : Bool
  vpnType : String
  confidence : ℚ
  detectionMethods : List String
deriving DecidableEq

/-- ISP/organisation indicator keywords of `part_000` (lines 277–281). -/
def vpnIndicators0 : List String :=
  ["amazon", "google", "microsoft", "digitalocean", "vultr", "linode",
   "ovh", "hetzner", "vpn", "proxy", "hosting", "server", "datacenter",
   "cloud", "virtual", "dedicated"]

/-- ISP/organisation indicator keywords of `part_001` (lines 176–179). -/
def vpnIndicators1 : List String :=
  ["amazon", "google", "microsoft", "digitalocean", "vultr", "linode",
   "ovh", "hetzner", "vpn", "proxy", "hosting"]

/-- The `vpnIndicators.find(indicator => org.includes(indicator))` step,
guarded by `if (geo && geo.org)`. -/
def orgIndicator (pats : List String) (geo : Option GeoRec) : Option String :=
  match geo with
  | some g =>
    match g.org with
    | some o =>
      if o ≠ "" then pats.find? (fun ind => containsSub (lowerS o) ind)
      else none
    | none => none
  | none => none

/-- Straight-line body of `part_000`'s `detectVPNProxy`: Tor set, ISP
analysis, then the GetIPIntel score (`intel` is `none` when the call failed
or returned a non-number, which the inner catch swallows). -/
def classifyBody0 (tor : List String) (geo : Option GeoRec) (intel : Option ℚ)
    (ip : String) : Verdict :=
  let st1 : Verdict :=
    if tor.contains ip then ⟨true, "tor", 0.95, ["tor_exit_node"]⟩
    else ⟨false, "none", 0, []⟩
  let st2 : Verdict :=
    match orgIndicator vpnIndicators0 geo with
    | some ind =>
      ⟨true, if containsSub ind "vpn" then "vpn" else "hosting/proxy",
       max st1.confidence 0.7, st1.detectionMethods ++ ["isp_analysis"]⟩
    | none => st1
  let st3 : Verdict :=
    match intel with
    | some score =>
      if score > 0.5 then
        ⟨true, if score > 0.8 then "vpn" else "proxy",
         max st2.confidence score, st2.detectionMethods ++ ["getipintel"]⟩
      else st2
    | none => st2
  ⟨st3.isVPN, st3.vpnType, min st3.confidence 1, st3.detectionMethods⟩

/-- Straight-line body of `part_001`'s `detectVPNProxy`: Tor set and ISP
analysis only (no GetIPIntel step). -/
def classifyBody1 (tor : List String) (geo : Option GeoRec) (ip : String) :
    Verdict :=
  let st1 : Verdict :=
    if tor.contains ip then ⟨true, "tor", 0.95, ["tor_exit_node"]⟩
    else ⟨false, "none", 0, []⟩
  let st2 : Verdict :=
    match orgIndicator vpnIndicators1 geo with
    | some ind =>
      ⟨true, if containsSub ind "vpn" then "vpn" else "hosting/proxy",
       max st1.confidence 0.7, st1.detectionMethods ++ ["isp_analysis"]⟩
    | none => st1
  ⟨st2.isVPN, st2.vpnType, min st2.confidence 1, st2.detectionMethods⟩

/-- The degraded verdict returned by the outer catch of both copies. -/
def degradedVerdict : Verdict := ⟨false, "unknown", 0, ["error"]⟩

/-- Function `detectVPNProxy` of `part_000`, with the outer try/catch made explicit:
`geoRes` is the outcome of the synchronous `geoip.lookup` call, the only
step of the body that can throw; any such error yields the degraded
verdict. -/
def detectVPNProxy0 (tor : List String) (geoRes : Except Unit (Option GeoRec))
    (intel : Option ℚ) (ip : String) : Verdict :=
  match geoRes with
  | Except.ok geo => classifyBody0 tor geo intel ip
  | Except.error _ => degradedVerdict

/-- Function `detectVPNProxy` of `part_001`, with the outer try/catch made explicit. -/
def detectVPNProxy1 (tor : List String) (geoRes : Except Unit (Option GeoRec))
    (ip : String) : Verdict :=
  match geoRes with
  | Except.ok geo => classifyBody1 tor geo ip
  | Except.error _ => degradedVerdict

/-! ## The `/api/track-visitor` handlers

`part_000` lines 375–457 and `part_001` lines 237–276. The embedded
handler returns the JSON response together with a flag recording whether
the visitor document was inserted. `dbOk` stands for the availability of
the document store (`db` non-null in `part_000`; a successful
`connectToDatabase()` in `part_001`, whose failure throws). `externalIP`
is the validated result of `getExternalIPInfo` (`none` when every echo
service failed). The stored document's browser/ipv6/session fields are
elided: no claim mentions them. -/

/-- The JSON response of the track-visitor endpoint (plus HTTP status). -/
structure TrackResp where
  status : ℕ
  success : Bool
  detectedIP : Option String
  location : Option String
  vpnDetected : Option Bool
deriving DecidableEq

/-- Handler of `part_000`. A `getRealIP` TypeError reaches the outer catch
and produces a 500; otherwise geo and VPN classification always run and
the response is a 200 regardless of `dbOk` (the insert is simply skipped
when the store is unavailable). -/
def trackVisitor0 (dbOk : Bool) (r : Req) (externalIP : Option String)
    (tor : List String) (geoFn : String → Option GeoRec) (intel : Option ℚ) :
    TrackResp × Bool :=
  match getRealIP0 r with
  | Except.error _ => (⟨500, false, none, none, none⟩, false)
  | Except.ok ip0 =>
    let ipv4 :=
      if ip0 == "" || ip0 == "unknown" || !(isValidPublicIP0 ip0) then
        match externalIP with
        | some e => e
        | none => "unknown"
      else ip0
    let loc := getLocationInfo0 (geoFn ipv4)
    let vpn := classifyBody0 tor (geoFn ipv4) intel ipv4
    (⟨200, true, some ipv4, some (loc.city ++ ", " ++ loc.country),
      some vpn.isVPN⟩, dbOk)

/-- Handler of `part_001`. Its `connectToDatabase()` rethrows its connection
error (line 82) and the insert is awaited unconditionally, so a
store-unavailable deployment answers 500 before any classification runs. -/
def trackVisitor1 (dbOk : Bool) (r : Req) (tor : List String)
    (geoFn : String → Option GeoRec) : TrackResp × Bool :=
  if dbOk then
    let ipv4 := getRealIP1 r
    let loc := getLocationInfo1 (geoFn ipv4)
    let vpn := classifyBody1 tor (geoFn ipv4) ipv4
    (⟨200, true, some ipv4, some (loc.city ++ ", " ++ loc.country),
      some vpn.isVPN⟩, true)
  else (⟨500, false, none, none, none⟩, false)

/-! ## The cleanup utility (`src/cleandb.js`) -/

/-- Observable effects of one run of the cleanup utility. -/
structure CleanRun where
  connectAttempted : Bool
  dropped : List String
  warnedOnly : Bool
deriving DecidableEq

/-- Function `cleanDatabase` (lines 7–124): connects, enumerates the collections and
drops each of them (when the connection fails it exits without dropping
anything). -/
def cleanDatabase (connectOk : Bool) (collections : List String) : CleanRun :=
  if connectOk then ⟨true, collections, false⟩ else ⟨true, [], false⟩

/-- The command-line gate (lines 127–142): `cleanDatabase` runs only when
`--confirm` is among the arguments; otherwise only a warning is printed. -/
def cleandbMain (argv : List String) (connectOk : Bool)
    (collections : List String) : CleanRun :=
  if argv.contains "--confirm" then cleanDatabase connectOk collections
  else ⟨false, [], true⟩

/-! ## `/api/admin/recent-visitors`

`part_000` lines 541–562 and `part_001` lines 317–333:
`const limit = parseInt(req.query.limit) || 50` followed by a
timestamp-descending sort and `cursor.limit(limit)`. Records are modelled
by their timestamps. -/

/-- Whitespace skipped by JS `parseInt` (space, tab, newline, carriage
return, vertical tab, form feed). -/
def jsWhitespaceB (ch : Char) : Bool :=
  ch == ' ' || ch == '\t' || ch == '\n' || ch == '\r' ||
    ch.val == 11 || ch.val == 12

/-- Numeric value of a (hex) digit character. -/
def digitVal (ch : Char) : ℕ :=
  if ch.isDigit then ch.toNat - 48
  else if 'a' ≤ ch ∧ ch ≤ 'f' then ch.toNat - 87
  else ch.toNat - 55

/-- Accumulate a digit string into a number. -/
def digitsToNat (base : ℕ) (l : List Char) : ℕ :=
  l.foldl (fun acc ch => acc * base + digitVal ch) 0

/-- Longest leading digit run in the given base; `none` (JS `NaN`) when
there is no digit. -/
def parseDigits (isD : Char → Bool) (base : ℕ) (l : List Char) : Option ℕ :=
  let ds := l.takeWhile isD
  if ds.isEmpty then none else some (digitsToNat base ds)

/-- Unsigned part of JS `parseInt` with no radix argument: a `0x`/`0X`
prefix selects base 16, otherwise base 10. -/
def parseIntCore (l : List Char) : Option ℕ :=
  match l with
  | '0' :: 'x' :: rest => parseDigits isHexChar 16 rest
  | '0' :: 'X' :: rest => parseDigits isHexChar 16 rest
  | _ => parseDigits Char.isDigit 10 l

/-- JS `parseInt(str)`: leading whitespace, an optional sign, then the
longest digit prefix; `none` models `NaN`. -/
def parseIntL (l : List Char) : Option Int :=
  match l.dropWhile jsWhitespaceB with
  | '-' :: rest => (parseIntCore rest).map (fun n => -(n : Int))
  | '+' :: rest => (parseIntCore rest).map (fun n => (n : Int))
  | l1 => (parseIntCore l1).map (fun n => (n : Int))

/-- JS `parseInt(req.query.limit)` where an absent parameter is `undefined`
(stringified to `"undefined"`, hence `NaN`). -/
def parseIntJS (q : Option String) : Option Int :=
  match q with
  | some s => parseIntL s.data
  | none => none

/-- JS `parseInt(req.query.limit) || 50`: `NaN` and `0` are falsy. -/
def effLimit (q : Option String) : Int :=
  match parseIntJS q with
  | some n => if n == 0 then 50 else n
  | none => 50

/-- Insertion into a list sorted by the Boolean comparator. -/
def insertAsc {α : Type} (le : α → α → Bool) (x : α) : List α → List α
  | [] => [x]
  | y :: ys => if le x y then x :: y :: ys else y :: insertAsc le x ys

/-- Insertion sort by a Boolean comparator, modelling the document store's
sort stages (which sort by keys that are distinct or totally ordered, so
any correct comparison sort is extensionally the source's sort). -/
def sortAsc {α : Type} (le : α → α → Bool) : List α → List α
  | [] => []
  | x :: xs => insertAsc le x (sortAsc le xs)

/-- Timestamp-descending comparator (`.sort({ timestamp: -1 })`). -/
def descLe (a b : ℕ) : Bool := decide (b ≤ a)

/-- The recent-visitors query of `part_000`: empty when the store is
unavailable, otherwise the newest `limit` records (a negative JS limit
reaches MongoDB's `cursor.limit`, which applies its absolute value). -/
def recentVisitors0 (dbOk : Bool) (limitParam : Option String)
    (records : List ℕ) : List ℕ :=
  if dbOk then (sortAsc descLe records).take (effLimit limitParam).natAbs
  else []

/-! ## `/api/admin/timeline`

`part_000` lines 593–640 and `part_001` lines 358–401 (identical
pipelines): match `timestamp ≥ now - window`, group by UTC
year/month/day(/hour for `24h`), count, sort ascending by the group key.
Timestamps are UTC epoch milliseconds; the calendar decomposition below is
the standard civil-from-days algorithm implementing the store's `$year`,
`$month` and `$dayOfMonth` operators. -/

/-- Civil date (year, month, day) of a day count since 1970-01-01 (UTC). -/
def civilFromDays (z : ℕ) : ℕ × ℕ × ℕ :=
  let z' := z + 719468
  let era := z' / 146097
  let doe := z' % 146097
  let yoe := (doe - doe / 1460 + doe / 36524 - doe / 146096) / 365
  let y := yoe + era * 400
  let doy := doe - (365 * yoe + yoe / 4 - yoe / 100)
  let mp := (5 * doy + 2) / 153
  let d := doy - (153 * mp + 2) / 5 + 1
  let m := if mp < 10 then mp + 3 else mp - 9
  (if m ≤ 2 then y + 1 else y, m, d)

/-- Operator `$year` of an epoch-millisecond timestamp. -/
def tsYear (t : ℕ) : ℕ := (civilFromDays (t / 86400000)).1

/-- Operator `$month` of an epoch-millisecond timestamp. -/
def tsMonth (t : ℕ) : ℕ := (civilFromDays (t / 86400000)).2.1

/-- Operator `$dayOfMonth` of an epoch-millisecond timestamp. -/
def tsDay (t : ℕ) : ℕ := (civilFromDays (t / 86400000)).2.2

/-- Operator `$hour` of an epoch-millisecond timestamp. -/
def tsHour (t : ℕ) : ℕ := t % 86400000 / 3600000

/-- The `$group` key: `hour` is present only for the `24h` filter (`null`
otherwise, mirroring `filter === '24h' ? { $hour: … } : null`). -/
structure GroupKey where
  year : ℕ
  month : ℕ
  day : ℕ
  hour : Option ℕ
deriving DecidableEq

/-- The group key of one record under the given filter. -/
def bucketKey (filter : String) (t : ℕ) : GroupKey :=
  ⟨tsYear t, tsMonth t, tsDay t,
   if filter == "24h" then some (tsHour t) else none⟩

/-- The lower bound of the selected window (the `switch` on the filter;
anything unrecognised falls back to 24 hours). -/
def filterRange (filter : String) (now : ℕ) : ℕ :=
  if filter == "24h" then now - 86400000
  else if filter == "7d" then now - 604800000
  else if filter == "30d" then now - 2592000000
  else now - 86400000

/-- BSON sort position of the optional hour (`null` sorts before
numbers). -/
def hourRank (h : Option ℕ) : ℕ :=
  match h with
  | none => 0
  | some n => n + 1

/-- The `$sort: { year: 1, month: 1, day: 1, hour: 1 }` comparator. -/
def keyLe (a b : GroupKey) : Bool :=
  decide (a.year < b.year) ||
    (a.year == b.year &&
      (decide (a.month < b.month) ||
        (a.month == b.month &&
          (decide (a.day < b.day) ||
            (a.day == b.day &&
              decide (hourRank a.hour ≤ hourRank b.hour))))))

/-- Comparator `keyLe` lifted to buckets (key–count pairs). -/
def bucketLe (a b : GroupKey × ℕ) : Bool := keyLe a.1 b.1

/-- The timeline aggregation pipeline: match, group-with-count, sort. -/
def timeline (now : ℕ) (filter : String) (records : List ℕ) :
    List (GroupKey × ℕ) :=
  let matched := records.filter (fun t => decide (filterRange filter now ≤ t))
  let keys := (matched.map (bucketKey filter)).dedup
  let buckets := keys.map
    (fun k => (k, (matched.filter (fun t => bucketKey filter t == k)).length))
  sortAsc bucketLe buckets

/-! ## Helper lemmas -/

/-- Splitting never produces the empty list of groups. -/
theorem splitChar_ne_nil (c : Char) (l : List Char) : splitChar c l ≠ [] := by
  cases l with
  | nil => simp [splitChar]
  | cons x xs =>
    by_cases hx : x = c
    · simp [splitChar, hx]
    · simp only [splitChar, if_neg hx]
      cases splitChar c xs with
      | nil => simp
      | cons g gs => simp
/-- A character distinct from the separator that occurs in the list occurs
in one of the groups of the split. -/
theorem exists_group_of_mem (c x : Char) (hx : x ≠ c) :
    ∀ l : List Char, x ∈ l → ∃ g, g ∈ splitChar c l ∧ x ∈ g := by
  intro l
  induction l with
  | nil => intro h; cases h
  | cons y ys ih =>
    intro hmem
    by_cases hy : y = c
    · have hxy : x ∈ ys := by
        rcases List.mem_cons.mp hmem with h | h
        · exact absurd (h.trans hy) hx
        · exact h
      rcases ih hxy with ⟨g, hg, hxg⟩
      exact ⟨g, by simp [splitChar, hy, hg], hxg⟩
    · simp only [splitChar, if_neg hy]
      cases hsp : splitChar c ys with
      | nil => exact absurd hsp (splitChar_ne_nil c ys)
      | cons g gs =>
        rcases List.mem_cons.mp hmem with h | h
        · exact ⟨y :: g, by simp, by simp [h]⟩
        · rcases ih h with ⟨g', hg', hxg'⟩
          rw [hsp] at hg'
          rcases List.mem_cons.mp hg' with h' | h'
          · exact ⟨y :: g, by simp, by simp [h' ▸ hxg']⟩
          · exact ⟨g', by simp [h'], hxg'⟩
/-- A list with two adjacent occurrences of `c` contains `c`. -/
theorem mem_of_hasDoubleChar (c : Char) :
    ∀ l : List Char, hasDoubleChar c l = true → c ∈ l := by
  intro l
  induction l with
  | nil => intro h; simp [hasDoubleChar] at h
  | cons x xs ih =>
    intro h
    cases xs with
    | nil => simp [hasDoubleChar] at h
    | cons y rest =>
      by_cases hxy : x = c ∧ y = c
      · simp [hxy.1]
      · simp only [hasDoubleChar, if_neg hxy] at h
        exact List.mem_cons_of_mem x (ih h)
/-- Two adjacent occurrences of `c` decompose the list around them. -/
theorem hasDoubleChar_decomp (c : Char) :
    ∀ l : List Char, hasDoubleChar c l = true → ∃ a b, l = a ++ c :: c :: b := by
  intro l
  induction l with
  | nil => intro h; simp [hasDoubleChar] at h
  | cons x xs ih =>
    intro h
    cases xs with
    | nil => simp [hasDoubleChar] at h
    | cons y rest =>
      by_cases hxy : x = c ∧ y = c
      · exact ⟨[], rest, by rw [hxy.1, hxy.2]; rfl⟩
      · simp only [hasDoubleChar, if_neg hxy] at h
        rcases ih h with ⟨a, b, hab⟩
        exact ⟨x :: a, b, by rw [List.cons_append, ← hab]⟩
/-- Splitting a list containing two adjacent separators yields an empty
group beyond the first. -/
theorem nil_mem_tail_splitChar_append (c : Char) :
    ∀ a b : List Char, [] ∈ (splitChar c (a ++ c :: c :: b)).tail := by
  intro a
  induction a with
  | nil =>
    intro b
    simp [splitChar]
  | cons x a' ih =>
    intro b
    by_cases hx : x = c
    · simp only [List.cons_append, splitChar, if_pos hx, List.tail_cons]
      cases hsp : splitChar c (a' ++ c :: c :: b) with
      | nil => exact absurd hsp (splitChar_ne_nil c _)
      | cons g gs =>
        have htl := ih b
        rw [hsp] at htl
        simp only [List.tail_cons] at htl
        exact List.mem_cons_of_mem _ htl
    · simp only [List.cons_append, splitChar, if_neg hx]
      cases hsp : splitChar c (a' ++ c :: c :: b) with
      | nil => exact absurd hsp (splitChar_ne_nil c _)
      | cons g gs =>
        have htl := ih b
        rw [hsp] at htl
        simp only [List.tail_cons] at htl
        simpa using htl
/-- A list with two adjacent separators splits into groups one of which is
empty. -/
theorem nil_mem_splitChar (c : Char) (l : List Char)
    (hd : hasDoubleChar c l = true) : [] ∈ splitChar c l := by
  rcases hasDoubleChar_decomp c l hd with ⟨a, b, rfl⟩
  have htl := nil_mem_tail_splitChar_append c a b
  cases hsp : splitChar c (a ++ c :: c :: b) with
  | nil => exact absurd hsp (splitChar_ne_nil c _)
  | cons g gs =>
    rw [hsp] at htl
    simp only [List.tail_cons] at htl
    exact List.mem_cons_of_mem _ htl
/-- Boolean prefix test agrees with the prefix relation. -/
theorem isPrefixOf_eq_true_iff :
    ∀ (a b : List Char), a.isPrefixOf b = true ↔ a <+: b := by
  intro a
  induction a with
  | nil => intro b; simp [List.isPrefixOf, List.nil_prefix]
  | cons x xs ih =>
    intro b
    cases b with
    | nil => simp [List.isPrefixOf]
    | cons y ys =>
      simp [List.isPrefixOf, List.cons_prefix_cons, ih, Bool.and_eq_true,
        beq_iff_eq]
/-- Rebuilding a string from its own characters is the identity. -/
theorem stringMk_data (s : String) : String.mk s.data = s := by
  cases s; rfl

/-- Membership in an insertion. -/
theorem mem_insertAsc {α : Type} (le : α → α → Bool) (x y : α) :
    ∀ l : List α, y ∈ insertAsc le x l ↔ y = x ∨ y ∈ l := by
  intro l
  induction l with
  | nil => simp [insertAsc]
  | cons z zs ih =>
    by_cases h : le x z = true
    · simp [insertAsc, h]
    · simp only [insertAsc, if_neg h, List.mem_cons, ih]
      tauto

/-- Inserting into a sorted list keeps it sorted, for a total transitive
comparator. -/
theorem pairwise_insertAsc {α : Type} (le : α → α → Bool)
    (htot : ∀ a b, le a b = true ∨ le b a = true)
    (htrans : ∀ a b c, le a b = true → le b c = true → le a c = true)
    (x : α) : ∀ l : List α,
    l.Pairwise (fun a b => le a b = true) →
    (insertAsc le x l).Pairwise (fun a b => le a b = true) := by
  intro l
  induction l with
  | nil => intro _; simp [insertAsc]
  | cons z zs ih =>
    intro hp
    rcases List.pairwise_cons.mp hp with ⟨hz, hzs⟩
    by_cases h : le x z = true
    · simp only [insertAsc, if_pos h]
      refine List.pairwise_cons.mpr ⟨?_, hp⟩
      intro b hb
      rcases List.mem_cons.mp hb with rfl | hb2
      · exact h
      · exact htrans x z b h (hz b hb2)
    · simp only [insertAsc, if_neg h]
      refine List.pairwise_cons.mpr ⟨?_, ih hzs⟩
      intro b hb
      rcases (mem_insertAsc le x b zs).mp hb with hbx | hb2
      · rw [hbx]
        rcases htot x z with h1 | h1
        · exact absurd h1 h
        · exact h1
      · exact hz b hb2

/-- The sort is sorted, for a total transitive comparator. -/
theorem pairwise_sortAsc {α : Type} (le : α → α → Bool)
    (htot : ∀ a b, le a b = true ∨ le b a = true)
    (htrans : ∀ a b c, le a b = true → le b c = true → le a c = true) :
    ∀ l : List α, (sortAsc le l).Pairwise (fun a b => le a b = true) := by
  intro l
  induction l with
  | nil => simp [sortAsc]
  | cons x xs ih => exact pairwise_insertAsc le htot htrans x _ ih

/-- The sort preserves membership. -/
theorem mem_sortAsc {α : Type} (le : α → α → Bool) (y : α) :
    ∀ l : List α, y ∈ sortAsc le l ↔ y ∈ l := by
  intro l
  induction l with
  | nil => simp [sortAsc]
  | cons x xs ih => simp [sortAsc, mem_insertAsc, ih]

/-- The bucket comparator is total. -/
theorem bucketLe_total (a b : GroupKey × ℕ) :
    bucketLe a b = true ∨ bucketLe b a = true := by
  simp only [bucketLe, keyLe, Bool.or_eq_true, Bool.and_eq_true,
    decide_eq_true_eq, beq_iff_eq]
  omega

/-- The bucket comparator is transitive. -/
theorem bucketLe_trans (a b c : GroupKey × ℕ) (hab : bucketLe a b = true)
    (hbc : bucketLe b c = true) : bucketLe a c = true := by
  simp only [bucketLe, keyLe, Bool.or_eq_true, Bool.and_eq_true,
    decide_eq_true_eq, beq_iff_eq] at hab hbc ⊢
  omega

/-- The descending comparator is total. -/
theorem descLe_total (a b : ℕ) : descLe a b = true ∨ descLe b a = true := by
  simp only [descLe, decide_eq_true_eq]
  omega

/-- The descending comparator is transitive. -/
theorem descLe_trans (a b c : ℕ) (hab : descLe a b = true)
    (hbc : descLe b c = true) : descLe a c = true := by
  simp only [descLe, decide_eq_true_eq] at hab hbc ⊢
  omega

/-- Every bucket of the timeline counts at least one record inside the
window whose key is the bucket's key. -/
theorem timeline_mem (now : ℕ) (filter : String) (recs : List ℕ)
    (b : GroupKey × ℕ) (hb : b ∈ timeline now filter recs) :
    1 ≤ b.2 ∧ ∃ t, t ∈ recs ∧ filterRange filter now ≤ t ∧
      bucketKey filter t = b.1 := by
  simp only [timeline] at hb
  rw [mem_sortAsc] at hb
  rcases List.mem_map.mp hb with ⟨k, hk, rfl⟩
  rw [List.mem_dedup] at hk
  rcases List.mem_map.mp hk with ⟨t, ht, hkt⟩
  have htm := ht
  rcases List.mem_filter.mp ht with ⟨htrec, htrange⟩
  constructor
  · have hmemf : t ∈ (recs.filter
        (fun u => decide (filterRange filter now ≤ u))).filter
        (fun u => bucketKey filter u == k) :=
      List.mem_filter.mpr ⟨htm, by simp [hkt]⟩
    have := List.length_pos.mpr (List.ne_nil_of_mem hmemf)
    omega
  · exact ⟨t, htrec, by simpa using htrange, hkt⟩

/-- Stripping the IPv4-mapped prefix from a string that carries it leaves
the remainder. -/
theorem stripMappedL_append (l : List Char) :
    stripMappedL ("::ffff:".data ++ l) = l := by
  have hpre : ("::ffff:".data.isPrefixOf ("::ffff:".data ++ l)) = true :=
    (isPrefixOf_eq_true_iff _ _).mpr ⟨l, rfl⟩
  simp only [stripMappedL, hpre, if_true]
  have h7 : ("::ffff:".data).length = 7 := rfl
  rw [← h7, List.drop_left]

/-- A string that does not start with `::ffff:` does not start with
`::ffff:127.0.0.1` either. -/
theorem mappedLoopbackNotLeading (p : String)
    (hnp : ("::ffff:".data.isPrefixOf p.data) = false) :
    ("::ffff:127.0.0.1".data.isPrefixOf p.data) = false := by
  cases hb : ("::ffff:127.0.0.1".data.isPrefixOf p.data) with
  | false => rfl
  | true =>
    have h2 := (isPrefixOf_eq_true_iff _ _).mp hb
    have h3 : "::ffff:".data <+: "::ffff:127.0.0.1".data :=
      (isPrefixOf_eq_true_iff _ _).mp (by decide)
    have h4 := (isPrefixOf_eq_true_iff _ _).mpr (h3.trans h2)
    rw [h4] at hnp
    cases hnp

/-- A list containing a colon fails the dotted-quad test. -/
theorem ipv4TestL_false_of_colonMem (l : List Char) (hc : ':' ∈ l) :
    ipv4TestL l = false := by
  rcases exists_group_of_mem '.' ':' (by decide) l hc with ⟨g, hg, hmem⟩
  cases h4 : ipv4TestL l with
  | false => rfl
  | true =>
    exfalso
    simp only [ipv4TestL, Bool.and_eq_true, List.all_eq_true] at h4
    have hdg := h4.2 g hg
    simp only [isDigitGroup, Bool.and_eq_true, List.all_eq_true] at hdg
    have hd := hdg.2 ':' hmem
    exact absurd hd (by decide)

/-- A list with two adjacent colons fails the strict eight-group IPv6
test. -/
theorem ipv6TestL_false_of_double (l : List Char)
    (hd : hasDoubleChar ':' l = true) : ipv6TestL l = false := by
  cases h6 : ipv6TestL l with
  | false => rfl
  | true =>
    exfalso
    simp only [ipv6TestL, Bool.and_eq_true, List.all_eq_true] at h6
    have hg := h6.2 [] (nil_mem_splitChar ':' l hd)
    exact absurd hg (by decide)

/-- A split into at least two groups means the separator occurs. -/
theorem mem_of_splitChar_length (c : Char) :
    ∀ l : List Char, 2 ≤ (splitChar c l).length → c ∈ l := by
  intro l
  induction l with
  | nil => intro h; simp [splitChar] at h
  | cons x xs ih =>
    intro h
    by_cases hx : x = c
    · simp [hx]
    · simp only [splitChar, if_neg hx] at h
      cases hsp : splitChar c xs with
      | nil => exact absurd hsp (splitChar_ne_nil c xs)
      | cons g gs =>
        rw [hsp] at h
        simp only [List.length_cons] at h
        have h2 : 2 ≤ (splitChar c xs).length := by
          rw [hsp]; simpa using h
        exact List.mem_cons_of_mem x (ih h2)

/-- Both validators reject every spelling whose cleaned form still contains
a zero-compression (`::`). -/
theorem valid_false_of_doubleColon (s : String)
    (hd : hasDoubleChar ':' (stripMappedL s.data) = true) :
    isValidPublicIP0 s = false ∧ isValidPublicIP1 s = false := by
  have hcolon : ':' ∈ stripMappedL s.data := mem_of_hasDoubleChar ':' _ hd
  have h4 := ipv4TestL_false_of_colonMem _ hcolon
  have h6 := ipv6TestL_false_of_double _ hd
  constructor
  · simp [isValidPublicIP0, valid0L, validCore0, h4, h6]
  · simp [isValidPublicIP1, valid1L, validCore1, h4]

/-! ## The claims -/

/-- C2 (code bug), evaluated at the failing input: with an invalid or
absent `req.ip` and `x-forwarded-for: 8.8.8.8, 10.0.0.5`, `part_000`'s
resolver throws a TypeError (`value.split(',').trim()` calls `trim` on an
array) instead of returning `8.8.8.8`; `part_001`'s resolver, which writes
`value.split(',')[0].trim()`, returns `8.8.8.8` as the claim and the
source's own comment (`take first IP`) describe. -/
theorem C2_code_evaluation :
    getRealIP0 ⟨none, [("x-forwarded-for", "8.8.8.8, 10.0.0.5")],
        none, none, none⟩ = Except.error () ∧
    getRealIP0 ⟨some "::1", [("x-forwarded-for", "8.8.8.8, 10.0.0.5")],
        none, none, none⟩ = Except.error () ∧
    getRealIP1 ⟨none, [("x-forwarded-for", "8.8.8.8, 10.0.0.5")],
        none, none, none⟩ = "8.8.8.8" ∧
    getRealIP1 ⟨some "::1", [("x-forwarded-for", "8.8.8.8, 10.0.0.5")],
        none, none, none⟩ = "8.8.8.8" :=
  ⟨rfl, rfl, rfl, rfl⟩

/-- C3 (code bug), evaluated at the failing input: `part_000`'s
second-octet pattern `3[21]` misses 30 and wrongly matches 32, so the
private address `172.30.0.1` is accepted as public and the public address
`172.32.0.1` is rejected; `part_001` (pattern `3[01]`) classifies both
correctly, and the remaining listed ranges behave as the claim states. -/
theorem C3_code_evaluation :
    isValidPublicIP0 "172.30.0.1" = true ∧
    isValidPublicIP1 "172.30.0.1" = false ∧
    isValidPublicIP0 "172.32.0.1" = false ∧
    isValidPublicIP1 "172.32.0.1" = true ∧
    isValidPublicIP0 "172.31.0.1" = false ∧
    isValidPublicIP0 "172.16.0.1" = false ∧
    isValidPublicIP0 "8.8.8.8" = true ∧
    isValidPublicIP0 "10.0.0.1" = false ∧
    isValidPublicIP0 "192.168.1.1" = false ∧
    isValidPublicIP0 "127.0.0.1" = false ∧
    isValidPublicIP0 "169.254.1.1" = false ∧
    isValidPublicIP0 "::1" = false ∧
    isValidPublicIP0 "fe80::1" = false ∧
    isValidPublicIP0 "fc00:0:0:0:0:0:0:1" = false ∧
    isValidPublicIP0 "fd00:0:0:0:0:0:0:1" = false := by
  decide

/-- C5 (confirmed): the classifier is a total function of its inputs, and
an internal error (the outer catch) produces exactly the degraded verdict,
whose fields are `isVPN = false`, `vpnType = 'unknown'`, `confidence = 0`. -/
theorem C5_never_raises :
    ∀ (tor : List String) (intel : Option ℚ) (ip : String),
      detectVPNProxy0 tor (Except.error ()) intel ip = degradedVerdict ∧
      detectVPNProxy1 tor (Except.error ()) ip = degradedVerdict ∧
      degradedVerdict.isVPN = false ∧
      degradedVerdict.vpnType = "unknown" ∧
      degradedVerdict.confidence = 0 :=
  fun _ _ _ => ⟨rfl, rfl, rfl, rfl, rfl⟩

/-- C7 counterexample: a link-local Express-provided address (`fe80::1`,
and likewise `169.254.1.1`) is returned directly by step 1 of `part_000`'s
resolver; resolution does not fall through to the header scan. -/
theorem C7_counterexample :
    getRealIP0 ⟨some "fe80::1", [], none, none, none⟩ =
      Except.ok "fe80::1" ∧
    getRealIP0 ⟨some "169.254.1.1", [], none, none, none⟩ =
      Except.ok "169.254.1.1" :=
  ⟨rfl, rfl⟩

/-- C7 (corrected): step 1 of `part_000`'s resolver returns the
Express-provided address whenever it is non-empty, differs from `::1` and
`127.0.0.1`, and does not start with `::ffff:127.0.0.1`; link-local
addresses are not excluded by step 1. -/
theorem C7_step1_returns_nonloopback (p : String)
    (hdrs : List (String × String)) (c s cs : Option String)
    (h1 : p ≠ "") (h2 : p ≠ "::1") (h3 : p ≠ "127.0.0.1")
    (h4 : ("::ffff:127.0.0.1".data.isPrefixOf p.data) = false) :
    getRealIP0 ⟨some p, hdrs, c, s, cs⟩ = Except.ok (stripMappedS p) := by
  simp [getRealIP0, h1, h2, h3, h4]

/-- C7 witness: the amended statement applied to the link-local address
`fe80::1` with a proxy header present — step 1 still returns it. -/
theorem C7_witness :
    ("fe80::1" : String) ≠ "" ∧ ("fe80::1" : String) ≠ "::1" ∧
    ("fe80::1" : String) ≠ "127.0.0.1" ∧
    ("::ffff:127.0.0.1".data.isPrefixOf "fe80::1".data) = false ∧
    getRealIP0 ⟨some "fe80::1", [("x-forwarded-for", "8.8.8.8")],
        none, none, none⟩ = Except.ok (stripMappedS "fe80::1") := by
  refine ⟨by decide, by decide, by decide, by decide, ?_⟩
  exact C7_step1_returns_nonloopback "fe80::1" [("x-forwarded-for", "8.8.8.8")]
    none none none (by decide) (by decide) (by decide) (by decide)

/-- C9 (confirmed): without `--confirm` among the arguments the cleanup
utility performs no connection attempt and drops nothing; it only warns. -/
theorem C9_no_confirm_no_action :
    ∀ (argv : List String) (connectOk : Bool) (collections : List String),
      argv.contains "--confirm" = false →
      cleandbMain argv connectOk collections = ⟨false, [], true⟩ := by
  intro argv ok cols h
  simp only [cleandbMain, h, Bool.false_eq_true, if_false]

/-- C9 witness: a plain invocation (`node cleandb.js`) with a reachable
store holding one collection drops nothing and only warns. -/
theorem C9_witness :
    (["node", "cleandb.js"].contains "--confirm") = false ∧
    cleandbMain ["node", "cleandb.js"] true ["visitors"] =
      ⟨false, [], true⟩ :=
  ⟨by decide, C9_no_confirm_no_action _ _ _ (by decide)⟩

/-- C10 (confirmed): when the `limit` query parameter is absent,
non-numeric (`parseInt` gives `NaN`), or parses to `0`, the effective limit
is the default 50; the response then holds at most 50 records, sorted by
timestamp descending. -/
theorem C10_default_limit :
    ∀ (q : Option String) (dbOk : Bool) (recs : List ℕ),
      parseIntJS q = none ∨ parseIntJS q = some 0 →
      effLimit q = 50 ∧ (recentVisitors0 dbOk q recs).length ≤ 50 ∧
      (recentVisitors0 dbOk q recs).Pairwise (fun a b : ℕ => b ≤ a) := by
  intro q dbOk recs h
  have hl : effLimit q = 50 := by
    rcases h with h | h <;> simp [effLimit, h]
  refine ⟨hl, ?_, ?_⟩
  · cases dbOk with
    | false => simp [recentVisitors0]
    | true =>
      simp only [recentVisitors0, if_true, hl, List.length_take]
      omega
  · cases dbOk with
    | false => simp [recentVisitors0]
    | true =>
      simp only [recentVisitors0, if_true]
      have hp := pairwise_sortAsc descLe descLe_total descLe_trans recs
      have hp2 : (sortAsc descLe recs).Pairwise (fun a b : ℕ => b ≤ a) :=
        hp.imp (fun hab => by simpa [descLe] using hab)
      exact List.Pairwise.sublist (List.take_sublist _ _) hp2

/-- C10 witness: the non-numeric parameter `abc` produces the default
limit 50 and a small record set comes back complete and ordered. -/
theorem C10_witness :
    parseIntJS (some "abc") = none ∧ effLimit (some "abc") = 50 ∧
    (recentVisitors0 true (some "abc") [5, 9, 1]).length ≤ 50 ∧
    (recentVisitors0 true (some "abc") [5, 9, 1]).Pairwise
      (fun a b : ℕ => b ≤ a) := by
  have h := C10_default_limit (some "abc") true [5, 9, 1] (Or.inl (by decide))
  exact ⟨by decide, h.1, h.2.1, h.2.2⟩

/-- C6 counterexample: the strict eight-group public IPv6 address
`2001:4860:4860:0:0:0:0:8888` is rejected by `part_001`'s validator (which
accepts only IPv4), refuting the claim for that copy; `part_000` accepts
it, showing the address is indeed a non-excluded strict eight-group
spelling. -/
theorem C6_counterexample :
    isValidPublicIP1 "2001:4860:4860:0:0:0:0:8888" = false ∧
    isValidPublicIP0 "2001:4860:4860:0:0:0:0:8888" = true := by
  decide

/-- C6 (corrected): both validators strip a leading `::ffff:` prefix and
reject every zero-compressed (`::`) spelling; a strict eight-group IPv6
address outside the excluded ranges is accepted by `part_000`'s validator
but rejected by `part_001`'s, which accepts no IPv6 at all. -/
theorem C6_amended :
    (∀ s : String, ("::ffff:".data.isPrefixOf s.data) = false →
      isValidPublicIP0 (String.mk ("::ffff:".data ++ s.data)) =
        isValidPublicIP0 s ∧
      isValidPublicIP1 (String.mk ("::ffff:".data ++ s.data)) =
        isValidPublicIP1 s) ∧
    (∀ s : String, ipv6TestL (stripMappedL s.data) = true →
      privateTestL oct172Pats0 (stripMappedL s.data) = false →
      isValidPublicIP0 s = true ∧ isValidPublicIP1 s = false) ∧
    (∀ s : String, hasDoubleChar ':' (stripMappedL s.data) = true →
      isValidPublicIP0 s = false ∧ isValidPublicIP1 s = false) := by
  refine ⟨?_, ?_, ?_⟩
  · intro s hnp
    have hstrip : stripMappedL s.data = s.data := by
      simp [stripMappedL, hnp]
    constructor
    · show valid0L ("::ffff:".data ++ s.data) = valid0L s.data
      by_cases hse : s.data = []
      · rw [hse]; decide
      · have hne : (("::ffff:".data ++ s.data).isEmpty) = false := rfl
        have hse2 : s.data.isEmpty = false := by
          cases hd : s.data with
          | nil => exact absurd hd hse
          | cons a as => rfl
        calc valid0L ("::ffff:".data ++ s.data)
            = validCore0 (stripMappedL ("::ffff:".data ++ s.data)) := by
              show (if ("::ffff:".data ++ s.data).isEmpty then false
                else validCore0 (stripMappedL ("::ffff:".data ++ s.data))) = _
              rw [hne]
              simp
          _ = validCore0 s.data := by rw [stripMappedL_append]
          _ = valid0L s.data := by
              show _ = (if s.data.isEmpty then false
                else validCore0 (stripMappedL s.data))
              rw [hse2, hstrip]
              simp
    · show valid1L ("::ffff:".data ++ s.data) = valid1L s.data
      by_cases hse : s.data = []
      · rw [hse]; decide
      · have hne : (("::ffff:".data ++ s.data).isEmpty) = false := rfl
        have hse2 : s.data.isEmpty = false := by
          cases hd : s.data with
          | nil => exact absurd hd hse
          | cons a as => rfl
        calc valid1L ("::ffff:".data ++ s.data)
            = validCore1 (stripMappedL ("::ffff:".data ++ s.data)) := by
              show (if ("::ffff:".data ++ s.data).isEmpty then false
                else validCore1 (stripMappedL ("::ffff:".data ++ s.data))) = _
              rw [hne]
              simp
          _ = validCore1 s.data := by rw [stripMappedL_append]
          _ = valid1L s.data := by
              show _ = (if s.data.isEmpty then false
                else validCore1 (stripMappedL s.data))
              rw [hse2, hstrip]
              simp
  · intro s h6 hpriv
    by_cases hse : s.data = []
    · rw [hse] at h6
      exact absurd h6 (by decide)
    · have hse2 : s.data.isEmpty = false := by
        simpa [List.isEmpty_iff] using hse
      have hcolon : ':' ∈ stripMappedL s.data := by
        apply mem_of_splitChar_length ':'
        have h8 : (splitChar ':' (stripMappedL s.data)).length = 8 := by
          have := h6
          simp only [ipv6TestL, Bool.and_eq_true, beq_iff_eq] at this
          exact this.1
        omega
      have h4 := ipv4TestL_false_of_colonMem _ hcolon
      constructor
      · simp [isValidPublicIP0, valid0L, validCore0, h6, hpriv, hse2]
      · simp [isValidPublicIP1, valid1L, validCore1, h4, hse2]
  · exact fun s hd => valid_false_of_doubleColon s hd

/-- C6 witness: the amended statement applied to concrete inputs — the
prefix strip on `8.8.8.8`, the eight-group acceptance divergence on
`2001:4860:4860:0:0:0:0:8888`, and the rejection of the zero-compressed
`2001::8888` by both copies. -/
theorem C6_witness :
    (("::ffff:".data.isPrefixOf "8.8.8.8".data) = false ∧
      isValidPublicIP0 (String.mk ("::ffff:".data ++ "8.8.8.8".data)) =
        isValidPublicIP0 "8.8.8.8") ∧
    (ipv6TestL (stripMappedL "2001:4860:4860:0:0:0:0:8888".data) = true ∧
      privateTestL oct172Pats0
        (stripMappedL "2001:4860:4860:0:0:0:0:8888".data) = false ∧
      isValidPublicIP0 "2001:4860:4860:0:0:0:0:8888" = true) ∧
    (hasDoubleChar ':' (stripMappedL "2001::8888".data) = true ∧
      isValidPublicIP0 "2001::8888" = false ∧
      isValidPublicIP1 "2001::8888" = false) := by
  refine ⟨⟨by decide, (C6_amended.1 "8.8.8.8" (by decide)).1⟩,
    ⟨by decide, by decide,
      (C6_amended.2.1 "2001:4860:4860:0:0:0:0:8888" (by decide)
        (by decide)).1⟩,
    ⟨by decide, (C6_amended.2.2 "2001::8888" (by decide)).1,
      (C6_amended.2.2 "2001::8888" (by decide)).2⟩⟩

/-- C1 counterexample: on a store-unavailable deployment, a POST carrying
the public IP `8.8.8.8` in the `x-forwarded-for` header gets HTTP 500 with
`success:false` and no `detectedIP` from `part_001`'s handler, whose
`connectToDatabase()` rethrows before any classification runs. -/
theorem C1_counterexample :
    trackVisitor1 false
        ⟨none, [("x-forwarded-for", "8.8.8.8")], none, none, none⟩
        [] (fun _ => none) =
      (⟨500, false, none, none, none⟩, false) := rfl

/-- C1 (corrected): for `part_000`'s handler, whenever the Express-provided
address is a validated public IP not in IPv4-mapped form (as when a trusted
proxy forwards a public client IP), a store-unavailable deployment still
performs geolocation and VPN classification and answers 200 `success:true`
with that IP as `detectedIP`; the record is simply not persisted. -/
theorem C1_amended :
    ∀ (p : String) (hdrs : List (String × String)) (c s cs ext : Option String)
      (tor : List String) (geoFn : String → Option GeoRec) (intel : Option ℚ),
      isValidPublicIP0 p = true → ("::ffff:".data.isPrefixOf p.data) = false →
      trackVisitor0 false ⟨some p, hdrs, c, s, cs⟩ ext tor geoFn intel =
        (⟨200, true, some p,
          some ((getLocationInfo0 (geoFn p)).city ++ ", " ++
            (getLocationInfo0 (geoFn p)).country),
          some (classifyBody0 tor (geoFn p) intel p).isVPN⟩, false) := by
  intro p hdrs c s cs ext tor geoFn intel hv hnp
  have h1 : p ≠ "" := by
    intro he; rw [he] at hv; exact absurd hv (by decide)
  have h2 : p ≠ "::1" := by
    intro he; rw [he] at hv; exact absurd hv (by decide)
  have h3 : p ≠ "127.0.0.1" := by
    intro he; rw [he] at hv; exact absurd hv (by decide)
  have h4 := mappedLoopbackNotLeading p hnp
  have hstrip : stripMappedS p = p := by
    simp only [stripMappedS, stripMappedL, hnp, Bool.false_eq_true, if_false,
      stringMk_data]
  have hget : getRealIP0 ⟨some p, hdrs, c, s, cs⟩ = Except.ok p := by
    simp only [getRealIP0]
    rw [if_pos ⟨h1, h2, h3, h4⟩, hstrip]
  have hunk : (p == "unknown") = false := by
    apply beq_eq_false_iff_ne.mpr
    intro he; rw [he] at hv; exact absurd hv (by decide)
  have hemp : (p == "") = false := beq_eq_false_iff_ne.mpr h1
  simp only [trackVisitor0, hget, hunk, hemp, isValidPublicIP0] at hv ⊢
  simp [hv]

/-- C1 witness: the amended statement at `req.ip = 8.8.8.8` with an empty
Tor set, a missing geo record and no reputation score: 200, success, the
detected IP, an `Unknown, Unknown` location, no VPN flag, nothing
persisted. -/
theorem C1_witness :
    isValidPublicIP0 "8.8.8.8" = true ∧
    ("::ffff:".data.isPrefixOf "8.8.8.8".data) = false ∧
    trackVisitor0 false
        ⟨some "8.8.8.8", [("x-forwarded-for", "8.8.8.8")], none, none, none⟩
        none [] (fun _ => none) none =
      (⟨200, true, some "8.8.8.8", some "Unknown, Unknown", some false⟩,
        false) := by
  have h := C1_amended "8.8.8.8" [("x-forwarded-for", "8.8.8.8")]
    none none none none [] (fun _ => none) none (by decide) (by decide)
  refine ⟨by decide, by decide, ?_⟩
  rw [h]
  rfl

/-- C4 counterexample: a Tor-exit IP whose geo organisation is
`Amazon Technologies Inc` and whose reputation score is 0.99 is classified
with `vpnType = 'vpn'` (not `'tor'`) and confidence 0.99 (not 0.95): later
methods overwrite the type and can raise the confidence. -/
theorem C4_counterexample :
    (classifyBody0 ["9.9.9.9"]
        (some ⟨none, none, none, none, none,
          some "Amazon Technologies Inc", none⟩)
        (some (99 / 100)) "9.9.9.9").vpnType = "vpn" ∧
    (classifyBody0 ["9.9.9.9"]
        (some ⟨none, none, none, none, none,
          some "Amazon Technologies Inc", none⟩)
        (some (99 / 100)) "9.9.9.9").vpnType ≠ "tor" ∧
    (classifyBody0 ["9.9.9.9"]
        (some ⟨none, none, none, none, none,
          some "Amazon Technologies Inc", none⟩)
        (some (99 / 100)) "9.9.9.9").confidence = 99 / 100 ∧
    (classifyBody0 ["9.9.9.9"]
        (some ⟨none, none, none, none, none,
          some "Amazon Technologies Inc", none⟩)
        (some (99 / 100)) "9.9.9.9").confidence ≠ 0.95 ∧
    (classifyBody0 ["9.9.9.9"]
        (some ⟨none, none, none, none, none,
          some "Amazon Technologies Inc", none⟩)
        (some (99 / 100)) "9.9.9.9").isVPN = true := by
  have htor : (["9.9.9.9"] : List String).contains "9.9.9.9" = true := by
    decide
  have horg : orgIndicator vpnIndicators0
      (some ⟨none, none, none, none, none,
        some "Amazon Technologies Inc", none⟩) = some "amazon" := by decide
  have hvpn : containsSub "amazon" "vpn" = false := by decide
  have hv : classifyBody0 ["9.9.9.9"]
      (some ⟨none, none, none, none, none,
        some "Amazon Technologies Inc", none⟩)
      (some (99 / 100)) "9.9.9.9" =
      ⟨true, "vpn", 99 / 100,
        ["tor_exit_node", "isp_analysis", "getipintel"]⟩ := by
    simp only [classifyBody0, htor, horg, hvpn, if_true, Bool.false_eq_true,
      if_false]
    norm_num [max_def, min_def]
  rw [hv]
  refine ⟨rfl, by decide, rfl, by norm_num, rfl⟩

/-- C4 (corrected): a Tor-set IP always yields `isVPN = true` with
`tor_exit_node` among the detection methods (both copies); `vpnType = 'tor'`
and `confidence = 0.95` additionally hold when no other method fires — the
geo organisation matches no indicator and the reputation score, if any, is
not above 0.5. -/
theorem C4_amended :
    ∀ (tor : List String) (geo : Option GeoRec) (intel : Option ℚ)
      (ip : String),
      tor.contains ip = true →
      ((classifyBody0 tor geo intel ip).isVPN = true ∧
       "tor_exit_node" ∈ (classifyBody0 tor geo intel ip).detectionMethods ∧
       (classifyBody1 tor geo ip).isVPN = true ∧
       "tor_exit_node" ∈ (classifyBody1 tor geo ip).detectionMethods) ∧
      (orgIndicator vpnIndicators0 geo = none →
       orgIndicator vpnIndicators1 geo = none →
       (∀ sc : ℚ, intel = some sc → sc ≤ 0.5) →
       (classifyBody0 tor geo intel ip).vpnType = "tor" ∧
       (classifyBody0 tor geo intel ip).confidence = 0.95 ∧
       (classifyBody1 tor geo ip).vpnType = "tor" ∧
       (classifyBody1 tor geo ip).confidence = 0.95) := by
  intro tor geo intel ip htor
  constructor
  · refine ⟨?_, ?_, ?_, ?_⟩ <;>
    · simp only [classifyBody0, classifyBody1, htor, if_true]
      cases horg : orgIndicator vpnIndicators0 geo <;>
        cases horg1 : orgIndicator vpnIndicators1 geo <;>
          cases hintel : intel <;>
            simp <;>
              split <;> simp
  · intro horg0 horg1 hsc
    have hmin : min (0.95 : ℚ) 1 = 0.95 := by norm_num [min_def]
    cases hintel : intel with
    | none =>
      simp only [classifyBody0, classifyBody1, htor, if_true, horg0, horg1,
        hmin]
      simp
    | some sc =>
      have hle : ¬ (sc > 0.5) := not_lt.mpr (hsc sc hintel)
      simp only [classifyBody0, classifyBody1, htor, if_true, horg0, horg1,
        hle, if_false, hmin]
      simp

/-- C4 witness: a Tor-set IP with no geo record and no reputation score
gets the full Tor verdict from both copies. -/
theorem C4_witness :
    ((["1.2.3.4"] : List String).contains "1.2.3.4" = true) ∧
    (classifyBody0 ["1.2.3.4"] none none "1.2.3.4").isVPN = true ∧
    "tor_exit_node" ∈
      (classifyBody0 ["1.2.3.4"] none none "1.2.3.4").detectionMethods ∧
    (classifyBody0 ["1.2.3.4"] none none "1.2.3.4").vpnType = "tor" ∧
    (classifyBody0 ["1.2.3.4"] none none "1.2.3.4").confidence = 0.95 ∧
    (classifyBody1 ["1.2.3.4"] none "1.2.3.4").vpnType = "tor" ∧
    (classifyBody1 ["1.2.3.4"] none "1.2.3.4").confidence = 0.95 := by
  have h := C4_amended ["1.2.3.4"] none none "1.2.3.4" (by decide)
  have hB := h.2 rfl rfl (by intro sc hsc; cases hsc)
  exact ⟨by decide, h.1.1, h.1.2.1, hB.1, hB.2.1, hB.2.2.1, hB.2.2.2⟩

/-- Concrete evaluation of the timeline example (records at hours 1, 1
and 3 of the day, a window covering all of them). -/
theorem timeline_example_eval :
    timeline 342000000 "24h" [262800000, 263100000, 270000000] =
      [(⟨1970, 1, 4, some 1⟩, 2), (⟨1970, 1, 4, some 3⟩, 1)] := by decide

/-- C8 (confirmed): timeline buckets are ordered ascending by the group
key (year, month, day, then hour with `null` first); every bucket of any
filter counts at least one in-window record carrying its key (empty
buckets are omitted); keys are hourly for `24h` and daily for `7d`/`30d`;
and with records at hours 1, 1 and 3 of the window the `24h` timeline is
exactly the two buckets hour-1 count 2 and hour-3 count 1. -/
theorem C8_timeline_buckets :
    (∀ a b : GroupKey × ℕ, bucketLe a b = true ↔
      (a.1.year < b.1.year ∨ (a.1.year = b.1.year ∧
        (a.1.month < b.1.month ∨ (a.1.month = b.1.month ∧
          (a.1.day < b.1.day ∨ (a.1.day = b.1.day ∧
            hourRank a.1.hour ≤ hourRank b.1.hour))))))) ∧
    (∀ (now : ℕ) (filter : String) (recs : List ℕ),
      (timeline now filter recs).Pairwise
        (fun a b => bucketLe a b = true)) ∧
    (∀ (now : ℕ) (recs : List ℕ) (b : GroupKey × ℕ),
      b ∈ timeline now "24h" recs →
      1 ≤ b.2 ∧ (∃ h, b.1.hour = some h) ∧
      ∃ t, t ∈ recs ∧ now - 86400000 ≤ t ∧ bucketKey "24h" t = b.1) ∧
    (∀ (now : ℕ) (recs : List ℕ) (b : GroupKey × ℕ),
      b ∈ timeline now "7d" recs →
      1 ≤ b.2 ∧ b.1.hour = none ∧
      ∃ t, t ∈ recs ∧ now - 604800000 ≤ t ∧ bucketKey "7d" t = b.1) ∧
    (∀ (now : ℕ) (recs : List ℕ) (b : GroupKey × ℕ),
      b ∈ timeline now "30d" recs →
      1 ≤ b.2 ∧ b.1.hour = none ∧
      ∃ t, t ∈ recs ∧ now - 2592000000 ≤ t ∧ bucketKey "30d" t = b.1) ∧
    timeline 342000000 "24h" [262800000, 263100000, 270000000] =
      [(⟨1970, 1, 4, some 1⟩, 2), (⟨1970, 1, 4, some 3⟩, 1)] := by
  refine ⟨?_, ?_, ?_, ?_, ?_, ?_⟩
  · intro a b
    simp only [bucketLe, keyLe, Bool.or_eq_true, Bool.and_eq_true,
      decide_eq_true_eq, beq_iff_eq]
  · intro now filter recs
    simp only [timeline]
    exact pairwise_sortAsc bucketLe bucketLe_total bucketLe_trans _
  · intro now recs b hb
    have h := timeline_mem now "24h" recs b hb
    rcases h with ⟨hcount, t, htrec, htrange, hkey⟩
    refine ⟨hcount, ⟨tsHour t, ?_⟩, t, htrec, ?_, hkey⟩
    · rw [← hkey]
      rfl
    · have : filterRange "24h" now = now - 86400000 := by simp [filterRange]
      rw [← this]
      exact htrange
  · intro now recs b hb
    have h := timeline_mem now "7d" recs b hb
    rcases h with ⟨hcount, t, htrec, htrange, hkey⟩
    refine ⟨hcount, ?_, t, htrec, ?_, hkey⟩
    · rw [← hkey]
      rfl
    · have : filterRange "7d" now = now - 604800000 := by simp [filterRange]
      rw [← this]
      exact htrange
  · intro now recs b hb
    have h := timeline_mem now "30d" recs b hb
    rcases h with ⟨hcount, t, htrec, htrange, hkey⟩
    refine ⟨hcount, ?_, t, htrec, ?_, hkey⟩
    · rw [← hkey]
      rfl
    · have : filterRange "30d" now = now - 2592000000 := by simp [filterRange]
      rw [← this]
      exact htrange
  · exact timeline_example_eval

/-- C8 witness: the membership conjunct applied to the hour-1 bucket of
the concrete `24h` example. -/
theorem C8_witness :
    (⟨⟨1970, 1, 4, some 1⟩, 2⟩ : GroupKey × ℕ) ∈
      timeline 342000000 "24h" [262800000, 263100000, 270000000] ∧
    1 ≤ (⟨⟨1970, 1, 4, some 1⟩, 2⟩ : GroupKey × ℕ).2 ∧
    (∃ h, (⟨⟨1970, 1, 4, some 1⟩, 2⟩ : GroupKey × ℕ).1.hour = some h) ∧
    ∃ t, t ∈ [262800000, 263100000, 270000000] ∧
      342000000 - 86400000 ≤ t ∧
      bucketKey "24h" t = (⟨⟨1970, 1, 4, some 1⟩, 2⟩ : GroupKey × ℕ).1 := by
  have hmem : (⟨⟨1970, 1, 4, some 1⟩, 2⟩ : GroupKey × ℕ) ∈
      timeline 342000000 "24h" [262800000, 263100000, 270000000] := by
    decide
  have h := C8_timeline_buckets.2.2.1 342000000
    [262800000, 263100000, 270000000] ⟨⟨1970, 1, 4, some 1⟩, 2⟩ hmem
  exact ⟨hmem, h.1, h.2.1, h.2.2⟩
